import Mathlib

/-!
Verification of the metered-access gateway (credential lookup, credit ledger,
audit log, lifecycle/health endpoints) against its specification.

The definitions below are a shallow embedding of the JavaScript sources:
- `verifyApiKey` embeds the authentication middleware (middleware/auth.js);
- `deductCredits` embeds the Firestore transaction in services/userService.js;
- `logUserRequest` embeds the best-effort audit write in services/userService.js;
- `handleChat` embeds the POST /api/chat pipeline in routes/chat.js;
- the health-route handlers embed routes/health.js;
- `getMemoryStatusLevel` embeds utils/memoryMonitor.js;
- `mainStartup` embeds config/env.js plus the startup sequence of app.js.

JavaScript conventions mapped: an absent document field is `Option.none`
(JS `undefined`); `x || 0` on an integer field is `Option.getD 0` (0 is falsy
and maps to 0 itself); exceptions are `Except`; Firestore's `runTransaction`
applies the queued writes only when the transaction body did not throw.
-/

/-- JS `s.startsWith(p)`, on the character sequence of the string. -/
def jsStartsWith (s p : String) : Bool := decide (s.data.take p.data.length = p.data)

/-- JS `s.substring(n)`: the characters of `s` from index `n` on. -/
def jsSubstringFrom (s : String) (n : Nat) : String := String.mk (s.data.drop n)

/-- JS `s.substring(0, n)`: the first `n` characters of `s`. -/
def jsTruncate (s : String) (n : Nat) : String := String.mk (s.data.take n)

/-- JS `s.length` (character count; the embedded inputs are ASCII). -/
def jsLength (s : String) : Nat := s.data.length

/-- An `ApiError(status, code)` as thrown / sent by the source.  Human-readable
message strings are elided; `status` is the HTTP status and `code` the
machine-readable error code string. -/
structure ApiErr where
  status : Nat
  code : String
deriving DecidableEq, Repr

/-- A document of the `users` collection.  Every field the embedded code reads
is present; a field that a given stored document lacks is `none`
(JS `undefined`). -/
structure UserDoc where
  apiKey : String
  credits : Option Int
  totalRequests : Option Int
  status : Option String
  lastUsed : Option Nat
  email : Option String
deriving DecidableEq, Repr

/-- A document of the `requests` (audit log) collection, as built by
`logUserRequest`: the message is truncated to its first 500 characters
(`message?.substring(0, 500)`, `none` when the message is absent). -/
structure RequestLogData where
  userId : String
  requestId : String
  message : Option String
  responseLength : Int
  responseTime : Int
  creditsUsed : Int
deriving DecidableEq, Repr

/-- The Firestore store as seen by the embedded code: the `users` collection
(document id paired with document), the `requests` collection, and two fault
knobs. `queryFault = some c` means any access to the `users` collection throws
an error whose `code` property is `c` (the auth middleware special-cases
`c = "unavailable"`); `logFault = true` means the audit-log write throws. -/
structure Store where
  users : List (String × UserDoc)
  requests : List RequestLogData
  queryFault : Option String
  logFault : Bool
deriving DecidableEq, Repr

/-- `db.collection('users').where('apiKey','==',k).limit(1).get()`:
the first document whose `apiKey` field equals `k`, with its id. -/
def findUserByApiKey : List (String × UserDoc) → String → Option (String × UserDoc)
  | [], _ => none
  | (id, d) :: us, k => if d.apiKey = k then some (id, d) else findUserByApiKey us k

/-- JS `userData.credits <= 0`: `undefined <= 0` evaluates to `false`, so an
absent `credits` field passes the balance check. -/
def credsLeZero : Option Int → Bool
  | none => false
  | some c => c ≤ 0

/-- Outcome of the authentication middleware: either the request is admitted
with `req.user = { uid, ...userData }`, or a typed error response is sent. -/
inductive AuthResult where
  | ok (uid : String) (user : UserDoc)
  | err (e : ApiErr)
deriving DecidableEq, Repr

/-- The `verifyApiKey` middleware (middleware/auth.js).  In source order:
missing or non-Bearer `Authorization` header → 401 MISSING_AUTH_HEADER;
key shorter than 10 characters after stripping `Bearer ` → 401
INVALID_API_KEY_FORMAT; a store query fault → 503 SERVICE_UNAVAILABLE when its
code is `unavailable`, else 500 AUTH_ERROR (the catch block); no matching
document → 401 INVALID_API_KEY; `status === 'suspended'` → 403
ACCOUNT_SUSPENDED; `credits <= 0` → 403 INSUFFICIENT_CREDITS; otherwise the
request is admitted.  The middleware performs no store mutation. -/
def verifyApiKey (store : Store) (authHeader : Option String) : AuthResult :=
  match authHeader with
  | none => .err ⟨401, "MISSING_AUTH_HEADER"⟩
  | some h =>
    if ¬ jsStartsWith h "Bearer " then .err ⟨401, "MISSING_AUTH_HEADER"⟩
    else
      let apiKey := jsSubstringFrom h 7
      if jsLength apiKey < 10 then .err ⟨401, "INVALID_API_KEY_FORMAT"⟩
      else
        match store.queryFault with
        | some c =>
          if c = "unavailable" then .err ⟨503, "SERVICE_UNAVAILABLE"⟩
          else .err ⟨500, "AUTH_ERROR"⟩
        | none =>
          match findUserByApiKey store.users apiKey with
          | none => .err ⟨401, "INVALID_API_KEY"⟩
          | some (uid, userData) =>
            if userData.status = some "suspended" then .err ⟨403, "ACCOUNT_SUSPENDED"⟩
            else if credsLeZero userData.credits then .err ⟨403, "INSUFFICIENT_CREDITS"⟩
            else .ok uid userData

/-- `db.collection('users').doc(uid)` lookup by document id. -/
def usersFind : List (String × UserDoc) → String → Option UserDoc
  | [], _ => none
  | (k, d) :: us, uid => if k = uid then some d else usersFind us uid

/-- Write document `d` at id `uid` (`transaction.update` commits the merged
document; the three updated fields are merged in `deductCreditsTxn`). -/
def storeSet : List (String × UserDoc) → String → UserDoc → List (String × UserDoc)
  | [], _, _ => []
  | (k, d0) :: us, uid, d =>
    if k = uid then (k, d) :: storeSet us uid d else (k, d0) :: storeSet us uid d

/-- Result of the transaction body in `deductCredits`: either it throws
(`abort`, nothing is written) or it commits one document write and returns
the snapshot `{ ...userData, credits, totalRequests }`. -/
inductive TxnOutcome where
  | commit (uid : String) (newDoc : UserDoc) (snapshot : UserDoc)
  | abort (e : ApiErr)
deriving DecidableEq, Repr

/-- The body of `db.runTransaction` in `deductCredits`
(services/userService.js): read the user document; absent → throw 404
USER_NOT_FOUND; `currentCredits = userData.credits || 0`; if
`currentCredits < creditsToDeduct` → throw 403 INSUFFICIENT_CREDITS; otherwise
queue an update of `credits`, `totalRequests`, and
`lastUsed = serverTimestamp()` and return the snapshot (whose `lastUsed` is
the value read before the update, since only `credits` and `totalRequests`
are overridden in the returned object). -/
def deductCreditsTxn (store : Store) (userId : String) (creditsToDeduct : Int)
    (now : Nat) : TxnOutcome :=
  match usersFind store.users userId with
  | none => .abort ⟨404, "USER_NOT_FOUND"⟩
  | some userData =>
    let currentCredits := userData.credits.getD 0
    if currentCredits < creditsToDeduct then .abort ⟨403, "INSUFFICIENT_CREDITS"⟩
    else
      let newCredits := currentCredits - creditsToDeduct
      let newTotalRequests := userData.totalRequests.getD 0 + 1
      .commit userId
        { userData with
            credits := some newCredits
            totalRequests := some newTotalRequests
            lastUsed := some now }
        { userData with
            credits := some newCredits
            totalRequests := some newTotalRequests }

/-- Firestore `runTransaction` semantics: on commit the queued write is
applied to the store and the body's return value is produced; on abort the
store is untouched and the thrown error propagates. -/
def runUserTxn (store : Store) (t : TxnOutcome) : Store × Except ApiErr UserDoc :=
  match t with
  | .abort e => (store, .error e)
  | .commit uid d snap => ({ store with users := storeSet store.users uid d }, .ok snap)

/-- `deductCredits(userId, creditsToDeduct)` (services/userService.js),
returning the store after the call together with the result.  A non-`ApiError`
failure of the transaction (modelled by `queryFault`) is converted by the
catch block to 500 CREDIT_DEDUCTION_ERROR; the store is unchanged in every
failure case. -/
def deductCredits (store : Store) (userId : String) (creditsToDeduct : Int)
    (now : Nat) : Store × Except ApiErr UserDoc :=
  match store.queryFault with
  | some _ => (store, .error ⟨500, "CREDIT_DEDUCTION_ERROR"⟩)
  | none => runUserTxn store (deductCreditsTxn store userId creditsToDeduct now)

/-- The observable credit balance of account `uid` (0 when the account or its
`credits` field is absent, matching the `|| 0` reads in the source). -/
def creditsOf (store : Store) (uid : String) : Int :=
  match usersFind store.users uid with
  | none => 0
  | some d => d.credits.getD 0

/-- A sequence of debit operations, each `(userId, cost, now)`, applied in
order; each step keeps the store returned by `deductCredits`. -/
def applyDebits (store : Store) : List (String × Int × Nat) → Store
  | [] => store
  | op :: ops => applyDebits (deductCredits store op.1 op.2.1 op.2.2).1 ops

/-- The request id generated by `logUserRequest`:
`req_${Date.now()}_${Math.random().toString(36).substr(2, 9)}`, with the
clock reading and the random token as explicit inputs. -/
def mkRequestId (nowMs : Nat) (rand : String) : String :=
  "req_" ++ toString nowMs ++ "_" ++ rand

/-- The try-block of `logUserRequest` (services/userService.js): build the
audit record (message truncated to 500 characters) and append it to the
`requests` collection; the write throws when `logFault` is set. -/
def logUserRequestAttempt (store : Store) (userId : String) (message : Option String)
    (responseLength responseTime creditsUsed : Int) (nowMs : Nat) (rand : String) :
    Except String (Store × String) :=
  if store.logFault then .error "write failed"
  else
    let requestId := mkRequestId nowMs rand
    let rec' : RequestLogData :=
      { userId := userId
        requestId := requestId
        message := message.map (fun m => jsTruncate m 500)
        responseLength := responseLength
        responseTime := responseTime
        creditsUsed := creditsUsed }
    .ok ({ store with requests := store.requests ++ [rec'] }, requestId)

/-- `logUserRequest` (services/userService.js): any failure of the audit
write is caught and converted to `null`; on success the generated request id
is returned.  The function never throws. -/
def logUserRequest (store : Store) (userId : String) (message : Option String)
    (responseLength responseTime creditsUsed : Int) (nowMs : Nat) (rand : String) :
    Store × Option String :=
  match logUserRequestAttempt store userId message responseLength responseTime
      creditsUsed nowMs rand with
  | .ok (store', id) => (store', some id)
  | .error _ => (store, none)

instance {ε α} [DecidableEq ε] [DecidableEq α] : DecidableEq (Except ε α) := fun x y =>
  match x, y with
  | .ok a, .ok b =>
    if h : a = b then .isTrue (congrArg Except.ok h)
    else .isFalse (fun hh => h (Except.ok.inj hh))
  | .error a, .error b =>
    if h : a = b then .isTrue (congrArg Except.error h)
    else .isFalse (fun hh => h (Except.error.inj hh))
  | .ok _, .error _ => .isFalse (fun hh => Except.noConfusion hh)
  | .error _, .ok _ => .isFalse (fun hh => Except.noConfusion hh)

/-- The JSON body sent on a successful POST /api/chat (routes/chat.js);
fields not relevant to the claims (model name, timings) are elided. -/
structure ChatResponse where
  success : Bool
  response : String
  creditsRemaining : Option Int
  requestId : Option String
deriving DecidableEq, Repr

/-- Observable outcome of one POST /api/chat request: whether the external
generation service was invoked, the store afterwards, and the HTTP result. -/
structure ChatOutcome where
  generationCalled : Bool
  store : Store
  result : Except ApiErr ChatResponse
deriving DecidableEq, Repr

/-- The POST /api/chat pipeline (routes/chat.js behind `verifyApiKey`):
authenticate; on admission call the external generation service (an external
collaborator, modelled by its response text `aiText`), then
`deductCredits(req.user.uid, 1)`, then `logUserRequest` (best effort), and
answer with `credits_remaining` taken from the debit snapshot and
`request_id` from the audit log.  An auth or debit error becomes the error
response via the error middleware. -/
def handleChat (store : Store) (authHeader : Option String) (message : Option String)
    (aiText : String) (responseTime : Int) (now nowMs : Nat) (rand : String) :
    ChatOutcome :=
  match verifyApiKey store authHeader with
  | .err e => ⟨false, store, .error e⟩
  | .ok uid _user =>
    match deductCredits store uid 1 now with
    | (_, .error e) => ⟨true, store, .error e⟩
    | (store1, .ok updatedUser) =>
      let (store2, requestId) :=
        logUserRequest store1 uid message (jsLength aiText) responseTime 1 nowMs rand
      ⟨true, store2,
        .ok { success := true
              response := aiText
              creditsRemaining := updatedUser.credits
              requestId := requestId }⟩

/-- Erase the `request_id` field of a success response (statement helper used
to compare runs that differ only in the audit-log outcome). -/
def eraseRequestId : Except ApiErr ChatResponse → Except ApiErr ChatResponse
  | .ok r => .ok { r with requestId := none }
  | .error e => .error e

/-- Process-wide state relevant to shutdown: the store, whether a termination
signal (SIGTERM/SIGINT) has been received, and whether the HTTP listener
(`global.httpServer`) is still accepting connections. -/
structure AppState where
  store : Store
  shutdownSignalReceived : Bool
  httpServerOpen : Bool
deriving DecidableEq, Repr

/-- `gracefulShutdown` (app.js `setupGracefulShutdown`): close the HTTP
listener and, once in-flight connections have completed, exit with code 0.
The source installs no drain deadline and sets no flag consulted by request
handlers. -/
def gracefulShutdown (s : AppState) : AppState × Option Nat :=
  ({ s with shutdownSignalReceived := true, httpServerOpen := false }, some 0)

/-- The authentication step of the request pipeline as app.js wires it: the
middleware chain contains no lifecycle check, so a request that reaches the
process is handed to `verifyApiKey` regardless of the shutdown fields. -/
def dispatchAuth (s : AppState) (authHeader : Option String) : AuthResult :=
  verifyApiKey s.store authHeader

/-- The names bound at module scope in routes/health.js (its `require`
destructurings plus the local `router`): `getDatabase` is not among them, so
the reference to it inside the `/ready` handler throws a `ReferenceError`. -/
def healthRouteScope : List String :=
  ["express", "asyncHandler", "testConnection", "checkServiceHealth",
   "getMemoryStatus", "router"]

/-- The GET /api/health/ready handler (routes/health.js): the try-block's
first statement evaluates the name `getDatabase`; since that name is not in
the module scope the evaluation throws, the catch answers 503
`{status:"not_ready"}`.  Were the name bound, the handler would answer 503
when the database is uninitialized and 200 `{status:"ready"}` otherwise. -/
def readyHandler (dbInitialized : Bool) : Nat × String :=
  if "getDatabase" ∈ healthRouteScope then
    if dbInitialized then (200, "ready") else (503, "not_ready")
  else (503, "not_ready")

/-- The GET /api/health/detailed handler (routes/health.js).  Inputs:
`dbResult` is `testConnection()`'s outcome (`.error` when it throws),
`aiResult` is `checkServiceHealth()`'s reported status string (`.error` when
the call throws).  The handler accumulates `results.status`, records one
status string per check (`database`, `ai_service`, and the always-healthy
`system` check), then overrides the status from the count of unhealthy
checks, and finally maps healthy/degraded/else to 200/207/503. -/
def detailedHandler (dbResult : Except String Bool) (aiResult : Except String String) :
    String × Nat :=
  let status0 := "healthy"
  let dbCheck :=
    match dbResult with
    | .ok b => if b then "healthy" else "unhealthy"
    | .error _ => "unhealthy"
  let status1 := match dbResult with | .ok _ => status0 | .error _ => "degraded"
  let aiCheck :=
    match aiResult with
    | .ok s => s
    | .error _ => "unhealthy"
  let status2 :=
    match aiResult with
    | .ok s =>
      if s ≠ "healthy" then (if status1 = "healthy" then "degraded" else "unhealthy")
      else status1
    | .error _ => "unhealthy"
  let checks := [dbCheck, aiCheck, "healthy"]
  let unhealthyChecks := (checks.filter (fun c => c = "unhealthy")).length
  let finalStatus :=
    if unhealthyChecks > 0 then
      (if unhealthyChecks = checks.length then "unhealthy" else "degraded")
    else status2
  let statusCode :=
    if finalStatus = "healthy" then 200
    else if finalStatus = "degraded" then 207
    else 503
  (finalStatus, statusCode)

/-- `MEMORY_THRESHOLDS` (utils/memoryMonitor.js), in MB. -/
structure MemoryThresholds where
  WARNING : Nat
  CRITICAL : Nat
  MAX : Nat
deriving DecidableEq, Repr

/-- The default thresholds: WARNING 300, CRITICAL 400, MAX 450. -/
def MEMORY_THRESHOLDS : MemoryThresholds :=
  { WARNING := 300, CRITICAL := 400, MAX := 450 }

/-- The classification in `getMemoryStatus` (utils/memoryMonitor.js), as a
function of the sampled `heapUsed` in MB: strictly above CRITICAL →
`critical`; else strictly above WARNING → `warning`; else `healthy`. -/
def getMemoryStatusLevel (heapUsed : Nat) : String :=
  if heapUsed > MEMORY_THRESHOLDS.CRITICAL then "critical"
  else if heapUsed > MEMORY_THRESHOLDS.WARNING then "warning"
  else "healthy"

/-- The classification as the specification words it (§4.4): `healthy`
(< WARNING), `warning` (≥ WARNING, < CRITICAL), `critical` (≥ CRITICAL,
< MAX), `max` (≥ MAX).  Stated from the spec, for comparison with
`getMemoryStatusLevel`. -/
def specMemoryClassification (heapUsed : Nat) : String :=
  if heapUsed < MEMORY_THRESHOLDS.WARNING then "healthy"
  else if heapUsed < MEMORY_THRESHOLDS.CRITICAL then "warning"
  else if heapUsed < MEMORY_THRESHOLDS.MAX then "critical"
  else "max"

/-- `REQUIRED_ENV_VARS` (config/env.js). -/
def REQUIRED_ENV_VARS : List String :=
  ["FIREBASE_PROJECT_ID", "FIREBASE_PRIVATE_KEY_ID", "FIREBASE_PRIVATE_KEY",
   "FIREBASE_CLIENT_EMAIL", "FIREBASE_CLIENT_ID", "FIREBASE_DATABASE_URL",
   "GEMINI_API_KEY"]

/-- JS truthiness of `process.env[v]`: the variable is set and non-empty. -/
def envTruthy (env : String → Option String) (v : String) : Bool :=
  match env v with
  | none => false
  | some s => !(s = "")

/-- `validateEnvironment`'s filter (config/env.js): the required variables
that are absent (or empty), in declaration order; these are the names the
function prints before throwing. -/
def missingEnvVars (env : String → Option String) : List String :=
  REQUIRED_ENV_VARS.filter (fun v => ! envTruthy env v)

/-- Observable outcome of process startup (app.js `main`): either the process
exited during initialization with the given exit code after reporting the
given missing variable names — before `startServer` ran, so no port was
bound — or initialization succeeded and the listener was bound. -/
inductive StartupOutcome where
  | failedExit (exitCode : Nat) (reportedMissing : List String)
  | running (portBound : Bool)
deriving DecidableEq, Repr

/-- The startup sequence of app.js `main`: `initializeApp` runs
`validateEnvironment`, whose throw is caught and turned into
`process.exit(1)`; only when validation (and the subsequent construction
steps) succeed does `startServer` bind the port. -/
def mainStartup (env : String → Option String) : StartupOutcome :=
  if (missingEnvVars env).isEmpty then .running true
  else .failedExit 1 (missingEnvVars env)

/-! ### Concrete fixtures used by witnesses and counterexamples -/

/-- A stored account: valid key, 5 credits, 2 requests so far, last used at 5. -/
def demoUser : UserDoc :=
  { apiKey := "valid_key_123", credits := some 5, totalRequests := some 2,
    status := none, lastUsed := some 5, email := none }

/-- A healthy store holding only `demoUser` under document id `u1`. -/
def demoStore : Store :=
  { users := [("u1", demoUser)], requests := [], queryFault := none, logFault := false }

/-- An account document with no `credits` field at all. -/
def ghostUser : UserDoc :=
  { apiKey := "ghost_key_1234", credits := none, totalRequests := none,
    status := none, lastUsed := none, email := none }

/-- A healthy store holding only `ghostUser` under document id `g1`. -/
def ghostStore : Store :=
  { users := [("g1", ghostUser)], requests := [], queryFault := none, logFault := false }

/-- A healthy store with no accounts at all. -/
def emptyStore : Store :=
  { users := [], requests := [], queryFault := none, logFault := false }

/-- The process state after a termination signal was received and the
listener closed, with the healthy `demoStore` behind it. -/
def drainState : AppState :=
  { store := demoStore, shutdownSignalReceived := false, httpServerOpen := true }

/-- A store whose queries fail with the Firestore code `unavailable`. -/
def unavailableStore : Store :=
  { users := [("u1", demoUser)], requests := [], queryFault := some "unavailable",
    logFault := false }

/-- An environment with every required variable set. -/
def envComplete : String → Option String := fun _ => some "set"

/-- An environment missing exactly `GEMINI_API_KEY`. -/
def envNoGemini : String → Option String :=
  fun v => if v = "GEMINI_API_KEY" then none else some "set"

/-! ### Helper lemmas about the store primitives -/

theorem usersFind_storeSet_self (users : List (String × UserDoc)) (uid : String)
    (d : UserDoc) :
    usersFind (storeSet users uid d) uid = (usersFind users uid).map (fun _ => d) := by
  induction users with
  | nil => rfl
  | cons u us ih =>
    obtain ⟨k, d0⟩ := u
    by_cases hk : k = uid
    · subst hk
      simp [storeSet, usersFind]
    · simp [storeSet, usersFind, hk, ih]

theorem usersFind_storeSet_ne (users : List (String × UserDoc)) (uid v : String)
    (d : UserDoc) (h : v ≠ uid) :
    usersFind (storeSet users uid d) v = usersFind users v := by
  induction users with
  | nil => rfl
  | cons u us ih =>
    obtain ⟨k, d0⟩ := u
    by_cases hk : k = uid
    · have huv : ¬ uid = v := fun hv => h hv.symm
      simp [storeSet, usersFind, hk, huv, ih]
    · by_cases hkv : k = v
      · subst hkv
        simp [storeSet, usersFind, hk]
      · simp [storeSet, usersFind, hk, hkv, ih]

theorem verifyApiKey_logFault (users : List (String × UserDoc))
    (reqs : List RequestLogData) (qf : Option String) (b b' : Bool)
    (h : Option String) :
    verifyApiKey ⟨users, reqs, qf, b⟩ h = verifyApiKey ⟨users, reqs, qf, b'⟩ h := rfl

theorem deductCredits_logFault (users : List (String × UserDoc))
    (reqs : List RequestLogData) (qf : Option String) (b : Bool) (uid : String)
    (cost : Int) (now : Nat) :
    deductCredits ⟨users, reqs, qf, b⟩ uid cost now =
      ({ (deductCredits ⟨users, reqs, qf, false⟩ uid cost now).1 with logFault := b },
       (deductCredits ⟨users, reqs, qf, false⟩ uid cost now).2) := by
  cases qf with
  | some c => rfl
  | none =>
    unfold deductCredits runUserTxn deductCreditsTxn
    cases hf : usersFind users uid with
    | none => rfl
    | some d =>
      by_cases hlt : d.credits.getD 0 < cost
      · simp [hf, hlt]
      · simp [hf, hlt]

theorem creditsOf_deduct_step (store : Store) (uid a : String) (cost : Int)
    (now : Nat) (h0 : 0 ≤ creditsOf store a) :
    0 ≤ creditsOf (deductCredits store uid cost now).1 a := by
  obtain ⟨users, reqs, qf, lf⟩ := store
  cases qf with
  | some c => exact h0
  | none =>
    cases hf : usersFind users uid with
    | none =>
      simpa [deductCredits, deductCreditsTxn, runUserTxn, hf] using h0
    | some d =>
      by_cases hlt : d.credits.getD 0 < cost
      · simpa [deductCredits, deductCreditsTxn, runUserTxn, hf, hlt] using h0
      · have h1 : (deductCredits ⟨users, reqs, none, lf⟩ uid cost now).1.users =
            storeSet users uid
              { d with
                  credits := some (d.credits.getD 0 - cost)
                  totalRequests := some (d.totalRequests.getD 0 + 1)
                  lastUsed := some now } := by
          simp [deductCredits, deductCreditsTxn, runUserTxn, hf, hlt]
        unfold creditsOf at h0 ⊢
        rw [h1]
        by_cases ha : a = uid
        · subst ha
          rw [usersFind_storeSet_self, hf]
          simp only [Option.map_some', Option.getD_some]
          omega
        · rw [usersFind_storeSet_ne _ _ _ _ ha]
          exact h0

/-! ### C1 — atomic debit -/

/-- C1, counterexample.  The claim states that a successful debit's returned
snapshot reflects the new values of the debited account, `lastUsedAt`
included.  Debiting `demoUser` (5 credits, `lastUsed = 5`) by 1 at time 77
commits `lastUsed = 77` to the store, but the returned snapshot still carries
`lastUsed = 5`: the source builds the snapshot as
`{...userData, credits, totalRequests}`, overriding only those two fields.
The snapshot the claim predicts (third conjunct) is not what is returned. -/
theorem deductCredits_snapshot_stale_lastUsed :
    (deductCredits demoStore "u1" 1 77).2 =
      .ok { apiKey := "valid_key_123", credits := some 4, totalRequests := some 3,
            status := none, lastUsed := some 5, email := none } ∧
    usersFind (deductCredits demoStore "u1" 1 77).1.users "u1" =
      some { apiKey := "valid_key_123", credits := some 4, totalRequests := some 3,
             status := none, lastUsed := some 77, email := none } ∧
    (deductCredits demoStore "u1" 1 77).2 ≠
      .ok { apiKey := "valid_key_123", credits := some 4, totalRequests := some 3,
            status := none, lastUsed := some 77, email := none } := by
  decide

/-- C1, amended.  For a fault-free store: a successful debit (account present
with `credits || 0 ≥ cost`) applies, atomically, the credit decrement, the
`totalRequests` increment, and the `lastUsed := now` write to the one debited
document, leaves every other document and the audit collection untouched, and
returns a snapshot carrying the new `credits` and `totalRequests` (but the
pre-debit `lastUsed`).  A failed debit — balance below cost, or account
missing — returns the error and leaves the store entirely unchanged, so
`totalRequests` never increases on a failed debit. -/
theorem deductCredits_atomic (store : Store) (uid : String) (cost : Int)
    (now : Nat) (hq : store.queryFault = none) :
    (∀ d, usersFind store.users uid = some d →
      (cost ≤ d.credits.getD 0 →
        (deductCredits store uid cost now).2 =
          .ok { d with
                  credits := some (d.credits.getD 0 - cost)
                  totalRequests := some (d.totalRequests.getD 0 + 1) } ∧
        usersFind (deductCredits store uid cost now).1.users uid =
          some { d with
                   credits := some (d.credits.getD 0 - cost)
                   totalRequests := some (d.totalRequests.getD 0 + 1)
                   lastUsed := some now } ∧
        (∀ v, v ≠ uid →
          usersFind (deductCredits store uid cost now).1.users v =
            usersFind store.users v) ∧
        (deductCredits store uid cost now).1.requests = store.requests) ∧
      (d.credits.getD 0 < cost →
        deductCredits store uid cost now =
          (store, .error ⟨403, "INSUFFICIENT_CREDITS"⟩))) ∧
    (usersFind store.users uid = none →
      deductCredits store uid cost now = (store, .error ⟨404, "USER_NOT_FOUND"⟩)) := by
  obtain ⟨users, reqs, qf, lf⟩ := store
  simp only [Store.queryFault] at hq
  subst hq
  constructor
  · intro d hd
    constructor
    · intro hcost
      have hlt : ¬ (d.credits.getD 0 < cost) := not_lt.mpr hcost
      refine ⟨?_, ?_, ?_, ?_⟩
      · simp [deductCredits, deductCreditsTxn, runUserTxn, hd, hlt]
      · have h1 : (deductCredits ⟨users, reqs, none, lf⟩ uid cost now).1.users =
            storeSet users uid
              { d with
                  credits := some (d.credits.getD 0 - cost)
                  totalRequests := some (d.totalRequests.getD 0 + 1)
                  lastUsed := some now } := by
          simp [deductCredits, deductCreditsTxn, runUserTxn, hd, hlt]
        rw [h1, usersFind_storeSet_self]
        simp [Store.users] at hd
        rw [hd]
        rfl
      · intro v hv
        have h1 : (deductCredits ⟨users, reqs, none, lf⟩ uid cost now).1.users =
            storeSet users uid
              { d with
                  credits := some (d.credits.getD 0 - cost)
                  totalRequests := some (d.totalRequests.getD 0 + 1)
                  lastUsed := some now } := by
          simp [deductCredits, deductCreditsTxn, runUserTxn, hd, hlt]
        rw [h1, usersFind_storeSet_ne _ _ _ _ hv]
      · simp [deductCredits, deductCreditsTxn, runUserTxn, hd, hlt]
    · intro hlt
      simp [deductCredits, deductCreditsTxn, runUserTxn, hd, hlt]
  · intro hd
    simp [deductCredits, deductCreditsTxn, runUserTxn, hd]

/-- C1, witness: the amended theorem applied to `demoStore`: debiting account
`u1` (5 credits, 2 requests) by 1 at time 77 yields snapshot credits 4 and
totalRequests 3, and commits `lastUsed = 77`. -/
theorem deductCredits_atomic_witness :
    (deductCredits demoStore "u1" 1 77).2 =
      .ok { demoUser with credits := some 4, totalRequests := some 3 } ∧
    usersFind (deductCredits demoStore "u1" 1 77).1.users "u1" =
      some { demoUser with
               credits := some 4
               totalRequests := some 3
               lastUsed := some 77 } := by
  have h := (((deductCredits_atomic demoStore "u1" 1 77 rfl).1 demoUser
    (by decide)).1 (by decide))
  exact ⟨h.1, h.2.1⟩

theorem deductCredits_preserves_logFault (store : Store) (uid : String)
    (cost : Int) (now : Nat) :
    (deductCredits store uid cost now).1.logFault = store.logFault := by
  obtain ⟨users, reqs, qf, lf⟩ := store
  cases qf with
  | some c => rfl
  | none =>
    cases hf : usersFind users uid with
    | none => simp [deductCredits, deductCreditsTxn, runUserTxn, hf]
    | some d =>
      by_cases hlt : d.credits.getD 0 < cost
      · simp [deductCredits, deductCreditsTxn, runUserTxn, hf, hlt]
      · simp [deductCredits, deductCreditsTxn, runUserTxn, hf, hlt]

/-! ### C2 — credits never observably negative -/

/-- C2.  The debit refuses with 403 INSUFFICIENT_CREDITS whenever the balance
read inside the transaction is below the requested cost (second conjunct),
and consequently an account whose observed balance starts at `≥ 0` still has
balance `≥ 0` after any sequence of debit operations whatsoever — any
accounts, costs and times, fault or no fault (first conjunct).  Since every
observation point lies after some initial segment of the debit sequence and
the initial segment is itself such a sequence, the balance is non-negative at
every observation; concurrent debits serialize through the per-document
transaction the embedding models. -/
theorem credits_never_negative (store : Store) (a : String)
    (ops : List (String × Int × Nat)) (h0 : 0 ≤ creditsOf store a) :
    0 ≤ creditsOf (applyDebits store ops) a ∧
    (∀ (uid : String) (cost : Int) (now : Nat) (d : UserDoc),
      store.queryFault = none → usersFind store.users uid = some d →
      d.credits.getD 0 < cost →
      (deductCredits store uid cost now).2 =
        .error ⟨403, "INSUFFICIENT_CREDITS"⟩) := by
  constructor
  · induction ops generalizing store with
    | nil => simpa [applyDebits] using h0
    | cons op ops ih =>
      simp only [applyDebits]
      exact ih _ (creditsOf_deduct_step store op.1 a op.2.1 op.2.2 h0)
  · intro uid cost now d hq hf hlt
    obtain ⟨users, reqs, qf, lf⟩ := store
    simp only [Store.queryFault] at hq
    subst hq
    simp only [Store.users] at hf
    simp [deductCredits, deductCreditsTxn, runUserTxn, hf, hlt]

/-- C2, witness: starting from 5 credits, a run of three debits (one of which
must fail for lack of balance) leaves the observed balance non-negative, and
a debit of 9 against the 5-credit account is refused with 403. -/
theorem credits_never_negative_witness :
    0 ≤ creditsOf (applyDebits demoStore [("u1", 1, 10), ("u1", 9, 11), ("u1", 4, 12)]) "u1" ∧
    (deductCredits demoStore "u1" 9 11).2 = .error ⟨403, "INSUFFICIENT_CREDITS"⟩ := by
  have h := credits_never_negative demoStore "u1"
    [("u1", 1, 10), ("u1", 9, 11), ("u1", 4, 12)] (by decide)
  exact ⟨h.1, h.2 "u1" 9 11 demoUser rfl (by decide) (by decide)⟩

/-! ### C3 — no ServiceUnavailable gate during drain -/

/-- C3, counterexample.  After the termination-signal handler has run (the
listener is closed and the shutdown flag set), a request that reaches the
middleware with a valid key is still admitted by `verifyApiKey` — it is not
failed with 503 SERVICE_UNAVAILABLE, and the store lookup is performed.  The
source's `verifyApiKey` consults no lifecycle state at all. -/
theorem auth_not_gated_during_drain :
    (gracefulShutdown drainState).1.shutdownSignalReceived = true ∧
    dispatchAuth (gracefulShutdown drainState).1 (some "Bearer valid_key_123") =
      .ok "u1" demoUser ∧
    dispatchAuth (gracefulShutdown drainState).1 (some "Bearer valid_key_123") ≠
      .err ⟨503, "SERVICE_UNAVAILABLE"⟩ := by
  decide

/-- C3, amended.  On a termination signal the process merely closes the HTTP
listener (so the OS refuses further connections) and exits 0 once in-flight
connections finish, with no bounded drain timeout; the authentication outcome
of any request that still reaches the middleware is independent of the
shutdown state (first conjunct), and a 503 SERVICE_UNAVAILABLE from the gate
can only arise from a store query fault with code `unavailable`, never from
the lifecycle (third conjunct). -/
theorem shutdown_drain_behaviour :
    (∀ (st : Store) (f f' o o' : Bool) (h : Option String),
        dispatchAuth ⟨st, f, o⟩ h = dispatchAuth ⟨st, f', o'⟩ h) ∧
    (∀ s : AppState, (gracefulShutdown s).1.httpServerOpen = false ∧
        (gracefulShutdown s).2 = some 0) ∧
    (∀ (s : AppState) (h : Option String),
        dispatchAuth s h = .err ⟨503, "SERVICE_UNAVAILABLE"⟩ →
        s.store.queryFault = some "unavailable") := by
  refine ⟨fun st f f' o o' h => rfl, fun s => ⟨rfl, rfl⟩, ?_⟩
  intro s h heq
  unfold dispatchAuth at heq
  cases h with
  | none => simp [verifyApiKey] at heq
  | some hdr =>
    by_cases hb : jsStartsWith hdr "Bearer " = true
    · by_cases hlen : jsLength (jsSubstringFrom hdr 7) < 10
      · simp [verifyApiKey, hb, hlen] at heq
      · cases hq : s.store.queryFault with
        | none =>
          cases hf : findUserByApiKey s.store.users (jsSubstringFrom hdr 7) with
          | none => simp [verifyApiKey, hb, hlen, hq, hf] at heq
          | some p =>
            obtain ⟨uid, d⟩ := p
            by_cases hs1 : d.status = some "suspended"
            · simp [verifyApiKey, hb, hlen, hq, hf, hs1] at heq
            · by_cases hs2 : credsLeZero d.credits = true
              · simp [verifyApiKey, hb, hlen, hq, hf, hs1, hs2] at heq
              · simp [verifyApiKey, hb, hlen, hq, hf, hs1, hs2] at heq
        | some c =>
          by_cases hc : c = "unavailable"
          · subst hc; rfl
          · simp [verifyApiKey, hb, hlen, hq, hc] at heq
    · simp [verifyApiKey, hb] at heq

/-- C3, witness: the amended theorem's third conjunct applied to a store
whose queries fail with code `unavailable` and a well-formed credential. -/
theorem shutdown_drain_behaviour_witness :
    unavailableStore.queryFault = some "unavailable" := by
  exact shutdown_drain_behaviour.2.2 ⟨unavailableStore, false, true⟩
    (some "Bearer valid_key_123") (by decide)

/-! ### C4 — authentication resolution order -/

/-- C4, counterexample.  The claim says a credential with zero exact matches
in the store fails with InvalidCredential (INVALID_API_KEY).  The key
`short` has zero matches in the (empty) store, yet the middleware rejects it
with 401 INVALID_API_KEY_FORMAT — the format check (length below 10 after
stripping `Bearer `) fires before any store lookup. -/
theorem short_key_zero_matches_format_error :
    findUserByApiKey emptyStore.users "short" = none ∧
    verifyApiKey emptyStore (some "Bearer short") =
      .err ⟨401, "INVALID_API_KEY_FORMAT"⟩ ∧
    verifyApiKey emptyStore (some "Bearer short") ≠
      .err ⟨401, "INVALID_API_KEY"⟩ := by
  decide

/-- C4, amended.  For a fault-free store, authentication resolves in source
order: missing or non-Bearer header → 401 MissingCredential; a key shorter
than 10 characters after the `Bearer ` marker → 401 InvalidApiKeyFormat,
before any store access; a well-formed key with zero exact matches → 401
InvalidCredential; a matched suspended account → 403 AccountSuspended
regardless of balance; a matched active account with `credits <= 0` → 403
InsufficientCredits; otherwise the account record is returned (and the gate
performs no store mutation — it only reads). -/
theorem verifyApiKey_resolution (store : Store) (hq : store.queryFault = none) :
    (verifyApiKey store none = .err ⟨401, "MISSING_AUTH_HEADER"⟩) ∧
    (∀ h, jsStartsWith h "Bearer " = false →
      verifyApiKey store (some h) = .err ⟨401, "MISSING_AUTH_HEADER"⟩) ∧
    (∀ h, jsStartsWith h "Bearer " = true →
      jsLength (jsSubstringFrom h 7) < 10 →
      verifyApiKey store (some h) = .err ⟨401, "INVALID_API_KEY_FORMAT"⟩) ∧
    (∀ h, jsStartsWith h "Bearer " = true →
      ¬ jsLength (jsSubstringFrom h 7) < 10 →
      findUserByApiKey store.users (jsSubstringFrom h 7) = none →
      verifyApiKey store (some h) = .err ⟨401, "INVALID_API_KEY"⟩) ∧
    (∀ h uid d, jsStartsWith h "Bearer " = true →
      ¬ jsLength (jsSubstringFrom h 7) < 10 →
      findUserByApiKey store.users (jsSubstringFrom h 7) = some (uid, d) →
      d.status = some "suspended" →
      verifyApiKey store (some h) = .err ⟨403, "ACCOUNT_SUSPENDED"⟩) ∧
    (∀ h uid d, jsStartsWith h "Bearer " = true →
      ¬ jsLength (jsSubstringFrom h 7) < 10 →
      findUserByApiKey store.users (jsSubstringFrom h 7) = some (uid, d) →
      d.status ≠ some "suspended" → credsLeZero d.credits = true →
      verifyApiKey store (some h) = .err ⟨403, "INSUFFICIENT_CREDITS"⟩) ∧
    (∀ h uid d, jsStartsWith h "Bearer " = true →
      ¬ jsLength (jsSubstringFrom h 7) < 10 →
      findUserByApiKey store.users (jsSubstringFrom h 7) = some (uid, d) →
      d.status ≠ some "suspended" → credsLeZero d.credits = false →
      verifyApiKey store (some h) = .ok uid d) := by
  refine ⟨by simp [verifyApiKey], ?_, ?_, ?_, ?_, ?_, ?_⟩
  · intro h hb
    simp [verifyApiKey, hb]
  · intro h hb hlen
    simp [verifyApiKey, hb, hlen]
  · intro h hb hlen hf
    simp [verifyApiKey, hb, hlen, hq, hf]
  · intro h uid d hb hlen hf hs
    simp [verifyApiKey, hb, hlen, hq, hf, hs]
  · intro h uid d hb hlen hf hs hc
    simp [verifyApiKey, hb, hlen, hq, hf, hs, hc]
  · intro h uid d hb hlen hf hs hc
    simp [verifyApiKey, hb, hlen, hq, hf, hs, hc]

/-- C4, witness: the amended theorem applied to `demoStore` for the
zero-matches case — a well-formed unknown key is rejected with 401
INVALID_API_KEY. -/
theorem verifyApiKey_resolution_witness :
    verifyApiKey demoStore (some "Bearer nosuchkey99") =
      .err ⟨401, "INVALID_API_KEY"⟩ := by
  exact (verifyApiKey_resolution demoStore rfl).2.2.2.1 "Bearer nosuchkey99"
    (by decide) (by decide) (by decide)

/-! ### C5 — readiness probe -/

/-- C5.  The readiness handler can never report ready: the name `getDatabase`
is not bound in routes/health.js (only `testConnection` is imported from the
database module), so the handler's first statement throws a `ReferenceError`
that the catch converts to 503 `{status:"not_ready"}` — even when the
database is initialized and the process would otherwise be ready.  The
route's 200 `{status:"ready"}` branch is dead code. -/
theorem readyHandler_always_not_ready :
    ("getDatabase" ∈ healthRouteScope → False) ∧
    readyHandler true = (503, "not_ready") ∧
    readyHandler false = (503, "not_ready") := by
  decide

/-! ### C6 — startup validation -/

/-- C6.  If any required configuration variable is absent (or empty, which JS
treats the same), startup reports exactly the missing required names and the
process exits with code 1 without ever reaching the port-binding step; if all
required variables are present, validation passes and the listener is
bound.  The terminal failure state of the spec's lifecycle machine is
realized as the non-zero `process.exit` of `initializeApp`'s catch block. -/
theorem startup_validation (env : String → Option String) :
    ((∃ v ∈ REQUIRED_ENV_VARS, envTruthy env v = false) →
      mainStartup env = .failedExit 1 (missingEnvVars env) ∧
      missingEnvVars env ≠ [] ∧
      (∀ w, w ∈ missingEnvVars env ↔
        w ∈ REQUIRED_ENV_VARS ∧ envTruthy env w = false) ∧
      (∀ b, mainStartup env ≠ .running b)) ∧
    ((∀ v ∈ REQUIRED_ENV_VARS, envTruthy env v = true) →
      mainStartup env = .running true) := by
  constructor
  · rintro ⟨v, hv, hfalse⟩
    have hmem : v ∈ missingEnvVars env := by
      unfold missingEnvVars
      exact List.mem_filter.mpr ⟨hv, by simp [hfalse]⟩
    have hne : missingEnvVars env ≠ [] := by
      intro hnil
      rw [hnil] at hmem
      exact List.not_mem_nil v hmem
    have hnotempty : (missingEnvVars env).isEmpty = false := by
      cases hE : missingEnvVars env with
      | nil => exact absurd hE hne
      | cons x xs => rfl
    refine ⟨by simp [mainStartup, hnotempty], hne, ?_, ?_⟩
    · intro w
      simp [missingEnvVars, List.mem_filter]
    · intro b
      simp [mainStartup, hnotempty]
  · intro hall
    have hnil : missingEnvVars env = [] := by
      unfold missingEnvVars
      rw [List.filter_eq_nil_iff]
      intro w hw
      simp [hall w hw]
    simp [mainStartup, hnil]

/-- C6, witness: an environment missing exactly `GEMINI_API_KEY` exits with
code 1 reporting that name, and a complete environment proceeds to bind. -/
theorem startup_validation_witness :
    mainStartup envNoGemini = .failedExit 1 ["GEMINI_API_KEY"] ∧
    mainStartup envComplete = .running true := by
  have h1 := (startup_validation envNoGemini).1
    ⟨"GEMINI_API_KEY", by decide, by decide⟩
  have h2 := (startup_validation envComplete).2 (by decide)
  have e : missingEnvVars envNoGemini = ["GEMINI_API_KEY"] := by decide
  rw [e] at h1
  exact ⟨h1.1, h2⟩

/-! ### C7 — composite status of the detailed health endpoint -/

/-- C7, counterexample.  With the store unreachable (`testConnection`
returned `false`) and the generation service healthy, the claim demands
overall `unhealthy` with HTTP 503; the handler instead answers `degraded`
with HTTP 207 — the final override counts unhealthy checks, and the
always-healthy `system` check means the count can never reach the total. -/
theorem detailed_db_down_not_503 :
    detailedHandler (.ok false) (.ok "healthy") = ("degraded", 207) ∧
    detailedHandler (.ok false) (.ok "healthy") ≠ ("unhealthy", 503) := by
  decide

/-- C7, amended.  The detailed endpoint answers 200 exactly when both the
store check and the generation-service check are healthy, and 207 with
status `degraded` in every other case — including critical-dependency
failures; 503 is unreachable, and the memory classification is not consulted
by this endpoint at all. -/
theorem detailedHandler_codes (db : Except String Bool) (ai : Except String String) :
    (detailedHandler db ai).2 ≠ 503 ∧
    ((detailedHandler db ai).2 = 200 ↔ db = .ok true ∧ ai = .ok "healthy") ∧
    ((detailedHandler db ai).2 = 200 ∨ (detailedHandler db ai).2 = 207) := by
  rcases db with m | b
  · rcases ai with m2 | s
    · have e : detailedHandler (.error m) (.error m2) = ("degraded", 207) := rfl
      rw [e]
      exact ⟨by decide, iff_of_false (by decide) (fun h => Except.noConfusion h.1),
        Or.inr rfl⟩
    · by_cases hs : s = "healthy"
      · subst hs
        have e : detailedHandler (.error m) (.ok "healthy") = ("degraded", 207) := rfl
        rw [e]
        exact ⟨by decide, iff_of_false (by decide) (fun h => Except.noConfusion h.1),
          Or.inr rfl⟩
      · by_cases hu : s = "unhealthy"
        · subst hu
          have e : detailedHandler (.error m) (.ok "unhealthy") = ("degraded", 207) := rfl
          rw [e]
          exact ⟨by decide, iff_of_false (by decide) (fun h => Except.noConfusion h.1),
            Or.inr rfl⟩
        · have e : (detailedHandler (.error m) (.ok s)).2 = 207 := by
            simp [detailedHandler, hs, hu]
          rw [e]
          exact ⟨by decide, iff_of_false (by decide) (fun h => Except.noConfusion h.1),
            Or.inr rfl⟩
  · rcases ai with m2 | s
    · cases b
      · have e : detailedHandler (.ok false) (.error m2) = ("degraded", 207) := rfl
        rw [e]
        refine ⟨by decide, iff_of_false (by decide) ?_, Or.inr rfl⟩
        rintro ⟨h1, h2⟩
        exact Except.noConfusion h2
      · have e : detailedHandler (.ok true) (.error m2) = ("degraded", 207) := rfl
        rw [e]
        refine ⟨by decide, iff_of_false (by decide) ?_, Or.inr rfl⟩
        rintro ⟨h1, h2⟩
        exact Except.noConfusion h2
    · by_cases hs : s = "healthy"
      · subst hs
        cases b
        · have e : detailedHandler (.ok false) (.ok "healthy") = ("degraded", 207) := rfl
          rw [e]
          refine ⟨by decide, iff_of_false (by decide) ?_, Or.inr rfl⟩
          rintro ⟨h1, h2⟩
          exact absurd (Except.ok.inj h1) (by decide)
        · have e : detailedHandler (.ok true) (.ok "healthy") = ("healthy", 200) := rfl
          rw [e]
          exact ⟨by decide, iff_of_true rfl ⟨rfl, rfl⟩, Or.inl rfl⟩
      · by_cases hu : s = "unhealthy"
        · subst hu
          cases b
          · have e : detailedHandler (.ok false) (.ok "unhealthy") = ("degraded", 207) := rfl
            rw [e]
            refine ⟨by decide, iff_of_false (by decide) ?_, Or.inr rfl⟩
            rintro ⟨h1, h2⟩
            exact absurd (Except.ok.inj h2) (by decide)
          · have e : detailedHandler (.ok true) (.ok "unhealthy") = ("degraded", 207) := rfl
            rw [e]
            refine ⟨by decide, iff_of_false (by decide) ?_, Or.inr rfl⟩
            rintro ⟨h1, h2⟩
            exact absurd (Except.ok.inj h2) (by decide)
        · cases b
          · have e : (detailedHandler (.ok false) (.ok s)).2 = 207 := by
              simp [detailedHandler, hs, hu]
            rw [e]
            refine ⟨by decide, iff_of_false (by decide) ?_, Or.inr rfl⟩
            rintro ⟨h1, h2⟩
            exact hs (Except.ok.inj h2)
          · have e : (detailedHandler (.ok true) (.ok s)).2 = 207 := by
              simp [detailedHandler, hs, hu]
            rw [e]
            refine ⟨by decide, iff_of_false (by decide) ?_, Or.inr rfl⟩
            rintro ⟨h1, h2⟩
            exact hs (Except.ok.inj h2)

/-! ### C8 — memory classification boundaries -/

/-- C8, counterexample.  At exactly 300MB the code classifies `healthy`
(strict `>` comparison) while the claim's half-open intervals demand
`warning`; at 450MB the code classifies `critical` while the claim demands
`max` — indeed the status classification never produces a `max` level. -/
theorem memory_boundaries_mismatch :
    getMemoryStatusLevel 300 = "healthy" ∧
    specMemoryClassification 300 = "warning" ∧
    getMemoryStatusLevel 300 ≠ specMemoryClassification 300 ∧
    getMemoryStatusLevel 450 = "critical" ∧
    specMemoryClassification 450 = "max" ∧
    getMemoryStatusLevel 450 ≠ specMemoryClassification 450 := by
  decide

/-- C8, amended.  With the default thresholds (WARNING 300, CRITICAL 400,
MAX 450, in MB), the health-status classification is: `healthy` iff
usage ≤ WARNING; `warning` iff WARNING < usage ≤ CRITICAL; `critical` iff
usage > CRITICAL; and no `max` level is ever produced (the MAX threshold is
consulted only by the periodic cleanup routine, not by the status
classification). -/
theorem getMemoryStatusLevel_boundaries (u : Nat) :
    (getMemoryStatusLevel u = "healthy" ↔ u ≤ 300) ∧
    (getMemoryStatusLevel u = "warning" ↔ 300 < u ∧ u ≤ 400) ∧
    (getMemoryStatusLevel u = "critical" ↔ 400 < u) ∧
    getMemoryStatusLevel u ≠ "max" := by
  by_cases h1 : u > 400
  · have e : getMemoryStatusLevel u = "critical" := by
      simp [getMemoryStatusLevel, MEMORY_THRESHOLDS, h1]
    rw [e]
    exact ⟨iff_of_false (by decide) (by omega),
      iff_of_false (by decide) (by omega),
      iff_of_true rfl h1, by decide⟩
  · by_cases h2 : u > 300
    · have e : getMemoryStatusLevel u = "warning" := by
        simp [getMemoryStatusLevel, MEMORY_THRESHOLDS, h1, h2]
      rw [e]
      exact ⟨iff_of_false (by decide) (by omega),
        iff_of_true rfl ⟨h2, by omega⟩,
        iff_of_false (by decide) (by omega), by decide⟩
    · have e : getMemoryStatusLevel u = "healthy" := by
        simp [getMemoryStatusLevel, MEMORY_THRESHOLDS, h1, h2]
      rw [e]
      exact ⟨iff_of_true rfl (by omega),
        iff_of_false (by decide) (by omega),
        iff_of_false (by decide) (by omega), by decide⟩

/-! ### C9 — audit log never fails the caller -/

/-- C9.  The audit-log operation never raises to its caller: when the write
throws, the error is caught and the result is the untouched store with
`null` (first conjunct); when it succeeds, the truncated record is appended
and the generated request id returned (second conjunct); and the metered
call's response is unaffected by an audit failure — the two runs differ only
in the `request_id` field, the success flag, response text and
`credits_remaining` being identical (third conjunct). -/
theorem logUserRequest_never_propagates
    (users : List (String × UserDoc)) (reqs : List RequestLogData)
    (qf : Option String) (uid : String) (msg : Option String)
    (rl rt cu : Int) (nowMs : Nat) (rand : String) :
    (logUserRequest ⟨users, reqs, qf, true⟩ uid msg rl rt cu nowMs rand =
        (⟨users, reqs, qf, true⟩, none) ∧
      logUserRequestAttempt ⟨users, reqs, qf, true⟩ uid msg rl rt cu nowMs rand =
        .error "write failed") ∧
    (logUserRequest ⟨users, reqs, qf, false⟩ uid msg rl rt cu nowMs rand =
        (⟨users,
          reqs ++ [⟨uid, mkRequestId nowMs rand,
            msg.map (fun m => jsTruncate m 500), rl, rt, cu⟩],
          qf, false⟩,
         some (mkRequestId nowMs rand))) ∧
    (∀ (authHeader message : Option String) (aiText : String) (respT : Int) (now : Nat),
      (handleChat ⟨users, reqs, qf, true⟩ authHeader message aiText
          respT now nowMs rand).result =
        eraseRequestId ((handleChat ⟨users, reqs, qf, false⟩ authHeader message aiText
          respT now nowMs rand).result)) := by
  refine ⟨⟨rfl, rfl⟩, rfl, ?_⟩
  intro authHeader message aiText respT now
  simp only [handleChat]
  rw [verifyApiKey_logFault users reqs qf true false]
  cases hv : verifyApiKey ⟨users, reqs, qf, false⟩ authHeader with
  | err e => simp [eraseRequestId]
  | ok uid' u =>
    dsimp only
    rw [deductCredits_logFault users reqs qf true uid' 1 now]
    cases hd : deductCredits ⟨users, reqs, qf, false⟩ uid' 1 now with
    | mk s1 r =>
      cases r with
      | error e => simp [eraseRequestId]
      | ok snap =>
        have hlf := deductCredits_preserves_logFault ⟨users, reqs, qf, false⟩ uid' 1 now
        rw [hd] at hlf
        simp only [Store.logFault] at hlf
        simp [logUserRequest, logUserRequestAttempt, hlf, eraseRequestId]

/-- C9, witness: a successful audit write against `demoStore` appends the
truncated record and returns the generated id. -/
theorem logUserRequest_never_propagates_witness :
    logUserRequest demoStore "u1" (some "hi") 6 9 1 1000 "abc123xyz" =
      ({ demoStore with
           requests := [⟨"u1", mkRequestId 1000 "abc123xyz",
             some (jsTruncate "hi" 500), 6, 9, 1⟩] },
       some (mkRequestId 1000 "abc123xyz")) := by
  exact (logUserRequest_never_propagates [("u1", demoUser)] [] none "u1"
    (some "hi") 6 9 1 1000 "abc123xyz").2.1

/-! ### C10 — divergent defaults for a missing credits field -/

/-- C10.  For an account document with no `credits` field, the gate's
`credits <= 0` check is false (JS `undefined <= 0` is `false`), so the
request is admitted and the external generation call proceeds; the debit
then reads `credits || 0 = 0`, finds `0 < 1`, and fails with 403
INSUFFICIENT_CREDITS, leaving the store unchanged — the admission check and
the debit apply different defaults to the missing balance. -/
theorem missing_credits_admitted_then_debit_fails
    (store : Store) (hdr : String) (uid : String) (d : UserDoc)
    (msg : Option String) (aiText : String) (respT : Int) (now nowMs : Nat)
    (rand : String)
    (hq : store.queryFault = none)
    (hb : jsStartsWith hdr "Bearer " = true)
    (hlen : ¬ jsLength (jsSubstringFrom hdr 7) < 10)
    (hfind : findUserByApiKey store.users (jsSubstringFrom hdr 7) = some (uid, d))
    (hdoc : usersFind store.users uid = some d)
    (hcred : d.credits = none)
    (hstat : d.status ≠ some "suspended") :
    verifyApiKey store (some hdr) = .ok uid d ∧
    handleChat store (some hdr) msg aiText respT now nowMs rand =
      ⟨true, store, .error ⟨403, "INSUFFICIENT_CREDITS"⟩⟩ := by
  have hv : verifyApiKey store (some hdr) = .ok uid d := by
    simp [verifyApiKey, hq, hb, hlen, hfind, hstat, hcred, credsLeZero]
  refine ⟨hv, ?_⟩
  have hdd : deductCredits store uid 1 now =
      (store, .error ⟨403, "INSUFFICIENT_CREDITS"⟩) := by
    obtain ⟨users, reqs, qf, lf⟩ := store
    simp only [Store.queryFault] at hq
    subst hq
    simp only [Store.users] at hdoc
    simp [deductCredits, deductCreditsTxn, runUserTxn, hdoc, hcred]
  simp [handleChat, hv, hdd]

/-- C10, witness: the `ghostUser` account (no `credits` field) is admitted by
the gate and its debit is refused, with the generation call having been
made. -/
theorem missing_credits_admitted_witness :
    verifyApiKey ghostStore (some "Bearer ghost_key_1234") = .ok "g1" ghostUser ∧
    handleChat ghostStore (some "Bearer ghost_key_1234") (some "hello")
        "answer" 3 50 1000 "r4nd0m" =
      ⟨true, ghostStore, .error ⟨403, "INSUFFICIENT_CREDITS"⟩⟩ := by
  exact missing_credits_admitted_then_debit_fails ghostStore
    "Bearer ghost_key_1234" "g1" ghostUser (some "hello") "answer" 3 50 1000
    "r4nd0m" rfl (by decide) (by decide) (by decide) (by decide) rfl
    (by decide)
